import Mathlib

/-
Verification of the round RPM gauge firmware
(src/Gauge185Touch/src/LCD1.85.Round_Gauge.ino) against its design
specification.

Shallow embedding conventions:
  * C integer arithmetic on `int32_t` / `int` is modelled on `ℤ`
    (no value in the program approaches the 32-bit range limits);
  * `uint8_t` bytes are `Fin 256`, and the packed little-endian
    `RpmPacket` layout is decoded explicitly;
  * IEEE `float` arithmetic inside `update_needle` is modelled exactly
    over `ℚ`; every constant of the program (135, 270, 0.5, 14, 1000,
    8, 0.75) and every value the claims evaluate is exactly
    representable, and the claims under test are algebraic identities
    of the computation, not rounding statements;
  * the needle segment is kept in polar form (screen center, angle in
    degrees, inner and outer endpoint radii): the two cartesian
    endpoints of the source are the deterministic image
    (cx + cos(angle)*r, cy + sin(angle)*r) of this data, so equality
    of the polar form implies equality of the drawn endpoints;
  * LVGL scene/timer calls are modelled as explicit state passing on a
    `UiState` record holding exactly the globals the source mutates.
-/

namespace RWBGauge

/-! ## Gauge parameters (lines 106-125 of the source) -/

def RPM_MIN : ℤ := 0

def RPM_MAX : ℤ := 8000

def SCALE_MIN : ℤ := 0

def SCALE_MAX : ℤ := 8

def GAUGE_START_DEG : ℤ := 135

def GAUGE_SWEEP_DEG : ℤ := 270

def NEEDLE_INNER_RATIO : ℚ := 20 / 100

def NEEDLE_OUTER_RATIO : ℚ := 75 / 100

def ARC_WIDTH : ℤ := 14

/-- Size in pixels given to the meter object (`lv_obj_set_size(rpm_meter, 370, 370)`). -/
def GAUGE_SIZE : ℤ := 370

/-! ## Needle geometry engine (`update_needle`, lines 145-177) -/

/-- The two sequential saturation tests of lines 149-150:
`if (rpm < RPM_MIN) rpm = RPM_MIN; if (rpm > RPM_MAX) rpm = RPM_MAX;`. -/
def clampRpm (rpm : ℤ) : ℤ :=
  let r1 := if rpm < RPM_MIN then RPM_MIN else rpm
  if r1 > RPM_MAX then RPM_MAX else r1

/-- The two sequential saturation tests of lines 154-155 on the
display-scale value. -/
def clampScale (s : ℚ) : ℚ :=
  let s1 := if s < (SCALE_MIN : ℚ) then (SCALE_MIN : ℚ) else s
  if s1 > (SCALE_MAX : ℚ) then (SCALE_MAX : ℚ) else s1

/-- Polar form of the needle line segment: the cartesian endpoints of the
source are (cx + cos(angle_rad) * inner_r, cy + sin(angle_rad) * inner_r)
and likewise with outer_r, a deterministic function of this record. -/
structure NeedleSegment where
  cx : ℤ
  cy : ℤ
  angle_deg : ℚ
  inner_r : ℚ
  outer_r : ℚ
deriving DecidableEq

/-- The geometry computation of `update_needle` (lines 149-174), the
`compute(measurement, screen_width, screen_height, gauge_diameter)`
contract of the spec. Mirrors the source order of operations exactly:
clamp to [RPM_MIN, RPM_MAX], divide by 1000, clamp to
[SCALE_MIN, SCALE_MAX], normalize, affine angle map, then radii where
`outer_r` is rescaled in place by NEEDLE_OUTER_RATIO only after
`inner_r` has been taken from the pre-scaled radius. -/
def compute (measurement screen_width screen_height gauge_diameter : ℤ) : NeedleSegment :=
  let rpm := clampRpm measurement
  let scale_val := clampScale ((rpm : ℚ) / 1000)
  let t : ℚ := (scale_val - (SCALE_MIN : ℚ)) / ((SCALE_MAX : ℚ) - (SCALE_MIN : ℚ))
  let angle_deg : ℚ := (GAUGE_START_DEG : ℚ) + t * (GAUGE_SWEEP_DEG : ℚ)
  let cx := screen_width / 2
  let cy := screen_height / 2
  let meter_radius := gauge_diameter / 2
  let outer0 : ℚ := (meter_radius : ℚ) - (ARC_WIDTH : ℚ) * (1 / 2)
  let inner_r : ℚ := outer0 * NEEDLE_INNER_RATIO
  let outer_r : ℚ := outer0 * NEEDLE_OUTER_RATIO
  ⟨cx, cy, angle_deg, inner_r, outer_r⟩

lemma clampRpm_nonneg (m : ℤ) : 0 ≤ clampRpm m := by
  simp only [clampRpm, RPM_MIN, RPM_MAX]
  split_ifs <;> omega

lemma clampRpm_le (m : ℤ) : clampRpm m ≤ 8000 := by
  simp only [clampRpm, RPM_MIN, RPM_MAX]
  split_ifs <;> omega

lemma clampScale_eq_self (s : ℚ) (h0 : 0 ≤ s) (h8 : s ≤ 8) : clampScale s = s := by
  simp only [clampScale, SCALE_MIN, SCALE_MAX]
  norm_num
  split_ifs <;> linarith

/-- The angle produced by the geometry engine is the affine image of the
clamped measurement. -/
lemma compute_angle (m w h d : ℤ) :
    (compute m w h d).angle_deg = 135 + (clampRpm m : ℚ) / 8000 * 270 := by
  have h0 : (0 : ℤ) ≤ clampRpm m := clampRpm_nonneg m
  have h8 : clampRpm m ≤ 8000 := clampRpm_le m
  have hq0 : (0 : ℚ) ≤ (clampRpm m : ℚ) / 1000 := by positivity
  have hq8 : (clampRpm m : ℚ) / 1000 ≤ 8 := by
    rw [div_le_iff₀ (by norm_num : (0 : ℚ) < 1000)]
    have hc : ((clampRpm m : ℤ) : ℚ) ≤ ((8000 : ℤ) : ℚ) := Int.cast_le.2 h8
    push_cast at hc ⊢
    linarith
  simp only [compute, GAUGE_START_DEG, GAUGE_SWEEP_DEG, SCALE_MIN, SCALE_MAX]
  rw [clampScale_eq_self _ hq0 hq8]
  push_cast
  rw [sub_zero, sub_zero, div_div]
  norm_num

/-- The geometry depends on the measurement only through its clamp. -/
lemma compute_congr {a b : ℤ} (w h d : ℤ) (hc : clampRpm a = clampRpm b) :
    compute a w h d = compute b w h d := by
  unfold compute
  rw [hc]

lemma clampRpm_of_neg {m : ℤ} (hm : m < 0) : clampRpm m = 0 := by
  simp only [clampRpm, RPM_MIN, RPM_MAX]
  split_ifs <;> omega

lemma clampRpm_of_gt {m : ℤ} (hm : 8000 < m) : clampRpm m = 8000 := by
  simp only [clampRpm, RPM_MIN, RPM_MAX]
  split_ifs <;> omega

lemma clampRpm_of_mem {m : ℤ} (h0 : 0 ≤ m) (h8 : m ≤ 8000) : clampRpm m = m := by
  simp only [clampRpm, RPM_MIN, RPM_MAX]
  split_ifs <;> omega

/-- Claim C1: for every measurement m the needle angle computed by the
geometry engine is the affine map angle_deg = 135 + t * 270 of the
clamped, normalized measurement t = clamp(m,0,8000)/8000; in particular
compute(0,...) yields 135 degrees, compute(4000,...) yields t = 0.5 and
270 degrees, and compute(8000,...) yields 405 degrees. -/
theorem needle_angle_affine (m w h d : ℤ) :
    (compute m w h d).angle_deg = 135 + (clampRpm m : ℚ) / 8000 * 270 ∧
    (compute 0 w h d).angle_deg = 135 ∧
    (compute 4000 w h d).angle_deg = 270 ∧
    (compute 8000 w h d).angle_deg = 405 := by
  refine ⟨compute_angle m w h d, ?_, ?_, ?_⟩
  · rw [compute_angle, clampRpm_of_mem (by norm_num) (by norm_num)]
    norm_num
  · rw [compute_angle, clampRpm_of_mem (by norm_num) (by norm_num)]
    norm_num
  · rw [compute_angle, clampRpm_of_mem (by norm_num) (by norm_num)]
    norm_num

/-- Claim C2: clamping to [0, 8000] is idempotent, and the geometry
computation saturates at the range boundaries: any m < 0 gives the same
segment as 0, any m > 8000 the same segment as 8000. -/
theorem clamp_idem_compute_saturates (m w h d : ℤ) :
    clampRpm (clampRpm m) = clampRpm m ∧
    (m < 0 → compute m w h d = compute 0 w h d) ∧
    (8000 < m → compute m w h d = compute 8000 w h d) := by
  refine ⟨?_, ?_, ?_⟩
  · simp only [clampRpm, RPM_MIN, RPM_MAX]
    split_ifs <;> omega
  · intro hm
    exact compute_congr w h d (by rw [clampRpm_of_neg hm, clampRpm_of_mem] <;> norm_num)
  · intro hm
    exact compute_congr w h d (by rw [clampRpm_of_gt hm, clampRpm_of_mem] <;> norm_num)

/-- Concrete instantiation of `clamp_idem_compute_saturates` at
m = -5 and m = 9001 with a 360x360 screen and the 370px gauge. -/
theorem clamp_idem_compute_saturates_witness :
    clampRpm (clampRpm (-5)) = clampRpm (-5) ∧
    compute (-5) 360 360 370 = compute 0 360 360 370 ∧
    compute 9001 360 360 370 = compute 8000 360 360 370 :=
  ⟨(clamp_idem_compute_saturates (-5) 360 360 370).1,
   (clamp_idem_compute_saturates (-5) 360 360 370).2.1 (by norm_num),
   (clamp_idem_compute_saturates 9001 360 360 370).2.2 (by norm_num)⟩

/-! ## ESP-NOW measurement channel (lines 96-100 and 337-346) -/

/-- A `uint8_t` of the incoming payload buffer. -/
abbrev Byte := Fin 256

/-- Wire size of the packed single-field `RpmPacket` struct:
`sizeof(RpmPacket)` = 4 bytes. -/
def RPM_PACKET_SIZE : ℕ := 4

/-- The `memcpy` of the first `sizeof(RpmPacket)` bytes into the packed
`uint32_t rpm` field, decoded little-endian (ESP32-S3 byte order). -/
def decodeRpmPacket (data : List Byte) : ℕ :=
  (data.getD 0 0).val + 256 * (data.getD 1 0).val +
    65536 * (data.getD 2 0).val + 16777216 * (data.getD 3 0).val

/-- The receive callback `esp_now_recv_cb` (lines 337-346) as a state
transformer on the stored `rpm_value`: payloads shorter than the wire
size are discarded, then the decoded value is stored only when it does
not exceed RPM_MAX. -/
def esp_now_recv_cb (incomingData : List Byte) (rpm_value : ℤ) : ℤ :=
  if incomingData.length < RPM_PACKET_SIZE then rpm_value
  else
    let rpm : ℕ := decodeRpmPacket incomingData
    if (rpm : ℤ) ≤ RPM_MAX then (rpm : ℤ) else rpm_value

/-- Initial value of the `volatile int32_t rpm_value` global (line 100). -/
def rpm_value_init : ℤ := 0

/-- A sequence of packet deliveries folded over the stored value. -/
def processPackets (ps : List (List Byte)) (v : ℤ) : ℤ :=
  ps.foldl (fun acc p => esp_now_recv_cb p acc) v

lemma esp_now_recv_cb_range (data : List Byte) (v : ℤ) (h0 : 0 ≤ v)
    (h8 : v ≤ RPM_MAX) :
    0 ≤ esp_now_recv_cb data v ∧ esp_now_recv_cb data v ≤ RPM_MAX := by
  simp only [esp_now_recv_cb]
  split_ifs with hlen hle
  · exact ⟨h0, h8⟩
  · exact ⟨Int.natCast_nonneg _, hle⟩
  · exact ⟨h0, h8⟩

lemma processPackets_range (ps : List (List Byte)) (v : ℤ) (h0 : 0 ≤ v)
    (h8 : v ≤ RPM_MAX) :
    0 ≤ processPackets ps v ∧ processPackets ps v ≤ RPM_MAX := by
  induction ps generalizing v with
  | nil => exact ⟨h0, h8⟩
  | cons p ps ih =>
      have hp := esp_now_recv_cb_range p v h0 h8
      exact ih (esp_now_recv_cb p v) hp.1 hp.2

/-- Claim C3: every payload shorter than the 4-byte wire format is
discarded silently, leaving the stored measurement unchanged. -/
theorem short_payload_discarded (data : List Byte) (v : ℤ)
    (h : data.length < RPM_PACKET_SIZE) : esp_now_recv_cb data v = v := by
  unfold esp_now_recv_cb
  rw [if_pos h]

/-- Concrete instantiation of `short_payload_discarded` on a 1-byte
payload with stored value 7. -/
theorem short_payload_discarded_witness :
    ([18] : List Byte).length < RPM_PACKET_SIZE ∧
    esp_now_recv_cb ([18] : List Byte) 7 = 7 :=
  ⟨by decide, short_payload_discarded [18] 7 (by decide)⟩

/-- Claim C4: for a valid-length payload the handler stores the decoded
value exactly when it does not exceed RPM_MAX = 8000; a payload encoding
8001 leaves the value unchanged while one encoding 8000 stores 8000
(discarding, never clamping). -/
theorem valid_payload_range_check (data : List Byte) (v : ℤ)
    (h : RPM_PACKET_SIZE ≤ data.length) :
    esp_now_recv_cb data v =
      (if (decodeRpmPacket data : ℤ) ≤ RPM_MAX then (decodeRpmPacket data : ℤ) else v) ∧
    esp_now_recv_cb ([65, 31, 0, 0] : List Byte) v = v ∧
    esp_now_recv_cb ([64, 31, 0, 0] : List Byte) v = 8000 := by
  refine ⟨?_, ?_, ?_⟩
  · unfold esp_now_recv_cb
    rw [if_neg (by omega)]
  · have hdec : decodeRpmPacket ([65, 31, 0, 0] : List Byte) = 8001 := by decide
    unfold esp_now_recv_cb
    rw [if_neg (by decide), hdec]
    norm_num [RPM_MAX]
  · have hdec : decodeRpmPacket ([64, 31, 0, 0] : List Byte) = 8000 := by decide
    unfold esp_now_recv_cb
    rw [if_neg (by decide), hdec]
    norm_num [RPM_MAX]

/-- Concrete instantiation of `valid_payload_range_check`: starting from
stored value 3, the little-endian payload [65,31,0,0] (= 8001) is
discarded and [64,31,0,0] (= 8000) is stored. -/
theorem valid_payload_range_check_witness :
    RPM_PACKET_SIZE ≤ ([64, 31, 0, 0] : List Byte).length ∧
    esp_now_recv_cb ([65, 31, 0, 0] : List Byte) 3 = 3 ∧
    esp_now_recv_cb ([64, 31, 0, 0] : List Byte) 3 = 8000 :=
  ⟨by decide,
   (valid_payload_range_check [64, 31, 0, 0] 3 (by decide)).2.1,
   (valid_payload_range_check [64, 31, 0, 0] 3 (by decide)).2.2⟩

/-- Claim C5: the stored measurement starts at 0 and, after any sequence
of packet receptions of arbitrary lengths and contents, remains within
[0, RPM_MAX]. -/
theorem rpm_value_invariant (ps : List (List Byte)) :
    rpm_value_init = 0 ∧
    0 ≤ processPackets ps rpm_value_init ∧
    processPackets ps rpm_value_init ≤ RPM_MAX :=
  ⟨rfl,
   (processPackets_range ps rpm_value_init le_rfl (by norm_num [rpm_value_init, RPM_MAX])).1,
   (processPackets_range ps rpm_value_init le_rfl (by norm_num [rpm_value_init, RPM_MAX])).2⟩

/-! ## Color scheme registry (lines 34-89) and touch cycling (lines 201-212) -/

/-- The ten `uint32_t` color fields of a scheme (lines 34-45). -/
structure ColorScheme where
  bg : ℕ
  gauge_lime : ℕ
  scale_text : ℕ
  inner_start : ℕ
  inner_end : ℕ
  needle : ℕ
  hub_fill : ℕ
  hub_border : ℕ
  rpm_text : ℕ
  brand_text : ℕ
deriving DecidableEq, Inhabited

/-- The compile-time registry `color_schemes[]` (lines 48-87), values
copied verbatim from the source; note skin 1's `brand_text` literal is
`0x8F8988f` in the source (line 72), i.e. 0x8F8988F. -/
def color_schemes : List ColorScheme :=
  [{ bg := 0x000000, gauge_lime := 0xB7FF00, scale_text := 0x99CF11,
     inner_start := 0x222222, inner_end := 0x000000, needle := 0xFF3B30,
     hub_fill := 0x111111, hub_border := 0xB7FF00, rpm_text := 0x6C7780,
     brand_text := 0x8F8988 },
   { bg := 0x101010, gauge_lime := 0xFFFFFF, scale_text := 0xFF3B30,
     inner_start := 0x444444, inner_end := 0x111111, needle := 0x8F8988,
     hub_fill := 0x000000, hub_border := 0xFFFFFF, rpm_text := 0xFFFFFF,
     brand_text := 0x8F8988F },
   { bg := 0x000000, gauge_lime := 0x00E0FF, scale_text := 0x00E0FF,
     inner_start := 0x003344, inner_end := 0x000000, needle := 0xFFC800,
     hub_fill := 0x000000, hub_border := 0x00E0FF, rpm_text := 0x00E0FF,
     brand_text := 0x8F8988 }]

/-- `sizeof(color_schemes) / sizeof(color_schemes[0])` (line 206). -/
def num_schemes : ℕ := color_schemes.length

/-- The scheme-cursor update of `touch_color_cycle_cb` (lines 205-208):
`current_scheme++; if (current_scheme >= count) current_scheme = 0;`. -/
def advance (current_scheme : ℤ) : ℤ :=
  let c := current_scheme + 1
  if c ≥ (num_schemes : ℤ) then 0 else c

/-- Claim C6: the registry has N = 3 schemes; from any valid index,
advancing N times returns to the original index, advancing N*k times for
any k returns to the original index, and every advance lands in [0, N). -/
theorem scheme_advance_cycle (i : ℤ) (k : ℕ) (h0 : 0 ≤ i)
    (h3 : i < (num_schemes : ℤ)) :
    num_schemes = 3 ∧
    advance^[num_schemes] i = i ∧
    advance^[num_schemes * k] i = i ∧
    0 ≤ advance i ∧ advance i < (num_schemes : ℤ) := by
  have hn : num_schemes = 3 := rfl
  have hi : i = 0 ∨ i = 1 ∨ i = 2 := by
    rw [hn] at h3
    omega
  have hfix : advance^[num_schemes] i = i := by
    rcases hi with rfl | rfl | rfl <;> decide
  refine ⟨hn, hfix, ?_, ?_⟩
  · rw [Function.iterate_mul]
    exact Function.iterate_fixed hfix k
  · rcases hi with rfl | rfl | rfl <;> exact ⟨by decide, by decide⟩

/-- Concrete instantiation of `scheme_advance_cycle` at index 1 with
k = 2 full cycles. -/
theorem scheme_advance_cycle_witness :
    (0 : ℤ) ≤ 1 ∧ (1 : ℤ) < (num_schemes : ℤ) ∧
    advance^[num_schemes] 1 = 1 ∧
    advance^[num_schemes * 2] 1 = 1 ∧
    0 ≤ advance 1 ∧ advance 1 < (num_schemes : ℤ) :=
  ⟨by decide, by decide,
   (scheme_advance_cycle 1 2 (by decide) (by decide)).2.1,
   (scheme_advance_cycle 1 2 (by decide) (by decide)).2.2.1,
   (scheme_advance_cycle 1 2 (by decide) (by decide)).2.2.2.1,
   (scheme_advance_cycle 1 2 (by decide) (by decide)).2.2.2.2⟩

/-- Claim C10 (code bug witness): the source comment on line 31 states
all colors are standard RGB hex 0xRRGGBB, but skin 1's `brand_text`
literal `0x8F8988f` (line 72) exceeds 0xFFFFFF; the other two skins use
0x8F8988 for the same field, showing the trailing `f` is a slip. -/
theorem brand_text_exceeds_24bit :
    (color_schemes.getD 1 default).brand_text = 0x8F8988F ∧
    0xFFFFFF < (color_schemes.getD 1 default).brand_text ∧
    (color_schemes.getD 0 default).brand_text = 0x8F8988 ∧
    (color_schemes.getD 2 default).brand_text = 0x8F8988 := by
  refine ⟨rfl, by decide, rfl, rfl⟩

/-! ## LVGL scene and timer state machine (lines 90, 131-136, 183-195,
201-212, 218-331) -/

/-- The LVGL timer facility: a pool of live timers, each with an id and
a period in milliseconds, plus a fresh-id counter. -/
structure TimerSystem where
  timers : List (ℕ × ℕ)
  nextId : ℕ
deriving DecidableEq

/-- `lv_timer_create(cb, period, NULL)`: registers a fresh live timer
and returns its handle. -/
def lv_timer_create (sys : TimerSystem) (period_ms : ℕ) : TimerSystem × ℕ :=
  (⟨(sys.nextId, period_ms) :: sys.timers, sys.nextId + 1⟩, sys.nextId)

/-- `lv_timer_del(t)`: removes the timer with the given handle from the
live pool. -/
def lv_timer_del (sys : TimerSystem) (id : ℕ) : TimerSystem :=
  ⟨sys.timers.filter (fun tp => tp.1 != id), sys.nextId⟩

/-- The mutable globals of the sketch: `current_scheme` (line 89),
`rpm_value` (line 100), whether `rpm_meter`/`needle_line` have been
created (lines 131-132, tested by the guard on line 147), the text of
`rpm_label` (None while the label object is NULL, line 135), the needle
geometry held in `needle_points` (lines 133, in polar form), the timer
pool and the `rpm_timer` handle (line 90). -/
structure UiState where
  current_scheme : ℤ
  rpm_value : ℤ
  built : Bool
  rpm_label : Option String
  needle : Option NeedleSegment
  sys : TimerSystem
  rpm_timer : Option ℕ
deriving DecidableEq

/-- `update_needle(rpm)` (lines 145-177) on the UI state: returns
unchanged when the meter or needle objects do not exist (line 147),
otherwise stores the recomputed segment for the 370px meter. -/
def update_needle (w h rpm : ℤ) (st : UiState) : UiState :=
  if st.built then { st with needle := some (compute rpm w h GAUGE_SIZE) } else st

/-- The 100ms timer callback `rpm_timer_cb` (lines 183-195): reads the
stored measurement, updates the needle, and if the label object exists
rewrites its text with the decimal rendering of the measurement. -/
def rpm_timer_cb (w h : ℤ) (st : UiState) : UiState :=
  let rpm := st.rpm_value
  let st1 := update_needle w h rpm st
  match st1.rpm_label with
  | some _ => { st1 with rpm_label := some (toString rpm) }
  | none => st1

/-- `Lvgl_CreateRpmGauge` (lines 218-331) restricted to the modelled
state: the scene rebuild creates the meter and needle objects
(`built := true`), sets the label text to "0" (line 304), runs
`update_needle(rpm_value)` (line 323), then deletes the previous
`rpm_timer` if any (lines 326-329) and creates a fresh 100ms timer
(line 330). -/
def Lvgl_CreateRpmGauge (w h : ℤ) (st : UiState) : UiState :=
  let st1 : UiState := { st with built := true, rpm_label := some "0" }
  let st2 := update_needle w h st1.rpm_value st1
  let st3 : UiState :=
    match st2.rpm_timer with
    | some t => { st2 with sys := lv_timer_del st2.sys t, rpm_timer := none }
    | none => st2
  let created := lv_timer_create st3.sys 100
  { st3 with sys := created.1, rpm_timer := some created.2 }

/-- The clicked branch of `touch_color_cycle_cb` (lines 201-212): the
callback is registered for LV_EVENT_CLICKED only (line 320); it advances
the scheme cursor and rebuilds the gauge. -/
def touch_color_cycle_cb (w h : ℤ) (st : UiState) : UiState :=
  Lvgl_CreateRpmGauge w h { st with current_scheme := advance st.current_scheme }

/-- Delivery of an ESP-NOW payload: only `rpm_value` is touched. -/
def esp_now_recv_event (data : List Byte) (st : UiState) : UiState :=
  { st with rpm_value := esp_now_recv_cb data st.rpm_value }

/-- The externally triggered events of the sketch. -/
inductive UiEvent where
  | build : UiEvent
  | tap : UiEvent
  | tick : UiEvent
  | packet : List Byte → UiEvent

def stepUi (w h : ℤ) (st : UiState) : UiEvent → UiState
  | UiEvent.build => Lvgl_CreateRpmGauge w h st
  | UiEvent.tap => touch_color_cycle_cb w h st
  | UiEvent.tick => rpm_timer_cb w h st
  | UiEvent.packet d => esp_now_recv_event d st

/-- Global state before `setup()` runs: scheme 0, measurement 0, no
scene objects, no timers. -/
def initUiState : UiState :=
  ⟨0, 0, false, none, none, ⟨[], 0⟩, none⟩

def runUi (w h : ℤ) (evs : List UiEvent) : UiState :=
  evs.foldl (stepUi w h) initUiState

/-- The timer part of the state invariant: no live timer and no handle,
or exactly one live timer of period 100 held by the `rpm_timer` handle. -/
def TimerInv (st : UiState) : Prop :=
  (st.sys.timers = [] ∧ st.rpm_timer = none) ∨
    ∃ id, st.sys.timers = [(id, 100)] ∧ st.rpm_timer = some id

lemma update_needle_sys (w h rpm : ℤ) (st : UiState) :
    (update_needle w h rpm st).sys = st.sys := by
  unfold update_needle
  split_ifs <;> rfl

lemma update_needle_rpm_timer (w h rpm : ℤ) (st : UiState) :
    (update_needle w h rpm st).rpm_timer = st.rpm_timer := by
  unfold update_needle
  split_ifs <;> rfl

lemma update_needle_rpm_label (w h rpm : ℤ) (st : UiState) :
    (update_needle w h rpm st).rpm_label = st.rpm_label := by
  unfold update_needle
  split_ifs <;> rfl

lemma update_needle_rpm_value (w h rpm : ℤ) (st : UiState) :
    (update_needle w h rpm st).rpm_value = st.rpm_value := by
  unfold update_needle
  split_ifs <;> rfl

lemma update_needle_current_scheme (w h rpm : ℤ) (st : UiState) :
    (update_needle w h rpm st).current_scheme = st.current_scheme := by
  unfold update_needle
  split_ifs <;> rfl

lemma update_needle_built (w h rpm : ℤ) (st : UiState) :
    (update_needle w h rpm st).built = st.built := by
  unfold update_needle
  split_ifs <;> rfl

lemma update_needle_needle_of_built (w h rpm : ℤ) (st : UiState)
    (hb : st.built = true) :
    (update_needle w h rpm st).needle = some (compute rpm w h GAUGE_SIZE) := by
  unfold update_needle
  rw [if_pos hb]

lemma create_result_none (w h : ℤ) (st : UiState) (hrt : st.rpm_timer = none) :
    (Lvgl_CreateRpmGauge w h st).sys.timers = (st.sys.nextId, 100) :: st.sys.timers ∧
    (Lvgl_CreateRpmGauge w h st).rpm_timer = some st.sys.nextId := by
  simp [Lvgl_CreateRpmGauge, lv_timer_create, update_needle_sys,
    update_needle_rpm_timer, hrt]

lemma create_result_some (w h : ℤ) (st : UiState) (t : ℕ)
    (hrt : st.rpm_timer = some t) :
    (Lvgl_CreateRpmGauge w h st).sys.timers =
      (st.sys.nextId, 100) :: st.sys.timers.filter (fun tp => tp.1 != t) ∧
    (Lvgl_CreateRpmGauge w h st).rpm_timer = some st.sys.nextId := by
  simp [Lvgl_CreateRpmGauge, lv_timer_create, lv_timer_del, update_needle_sys,
    update_needle_rpm_timer, hrt]

lemma create_timerInv (w h : ℤ) (st : UiState) (hinv : TimerInv st) :
    TimerInv (Lvgl_CreateRpmGauge w h st) := by
  rcases hinv with ⟨htimers, hnone⟩ | ⟨id, htimers, hsome⟩
  · right
    refine ⟨st.sys.nextId, ?_, (create_result_none w h st hnone).2⟩
    rw [(create_result_none w h st hnone).1, htimers]
  · right
    refine ⟨st.sys.nextId, ?_, (create_result_some w h st id hsome).2⟩
    rw [(create_result_some w h st id hsome).1, htimers]
    simp

lemma rpm_timer_cb_sys (w h : ℤ) (st : UiState) :
    (rpm_timer_cb w h st).sys = st.sys := by
  unfold rpm_timer_cb
  cases hl : st.rpm_label <;>
    simp [update_needle_rpm_label, update_needle_sys, hl]

lemma rpm_timer_cb_rpm_timer (w h : ℤ) (st : UiState) :
    (rpm_timer_cb w h st).rpm_timer = st.rpm_timer := by
  unfold rpm_timer_cb
  cases hl : st.rpm_label <;>
    simp [update_needle_rpm_label, update_needle_rpm_timer, hl]

lemma step_timerInv (w h : ℤ) (st : UiState) (e : UiEvent)
    (hinv : TimerInv st) : TimerInv (stepUi w h st e) := by
  cases e with
  | build => exact create_timerInv w h st hinv
  | tap =>
      refine create_timerInv w h _ ?_
      rcases hinv with ⟨h1, h2⟩ | ⟨id, h1, h2⟩
      · exact Or.inl ⟨h1, h2⟩
      · exact Or.inr ⟨id, h1, h2⟩
  | tick =>
      rcases hinv with ⟨h1, h2⟩ | ⟨id, h1, h2⟩
      · exact Or.inl ⟨by rw [stepUi, rpm_timer_cb_sys]; exact h1,
          by rw [stepUi, rpm_timer_cb_rpm_timer]; exact h2⟩
      · exact Or.inr ⟨id, by rw [stepUi, rpm_timer_cb_sys]; exact h1,
          by rw [stepUi, rpm_timer_cb_rpm_timer]; exact h2⟩
  | packet d =>
      rcases hinv with ⟨h1, h2⟩ | ⟨id, h1, h2⟩
      · exact Or.inl ⟨h1, h2⟩
      · exact Or.inr ⟨id, h1, h2⟩

lemma foldl_timerInv (w h : ℤ) (evs : List UiEvent) (st : UiState)
    (hinv : TimerInv st) : TimerInv (evs.foldl (stepUi w h) st) := by
  induction evs generalizing st with
  | nil => exact hinv
  | cons e evs ih => exact ih _ (step_timerInv w h st e hinv)

lemma runUi_timerInv (w h : ℤ) (evs : List UiEvent) :
    TimerInv (runUi w h evs) :=
  foldl_timerInv w h evs initUiState (Or.inl ⟨rfl, rfl⟩)

lemma runUi_append_build (w h : ℤ) (evs : List UiEvent) :
    runUi w h (evs ++ [UiEvent.build]) =
      Lvgl_CreateRpmGauge w h (runUi w h evs) := by
  unfold runUi
  rw [List.foldl_append]
  rfl

/-- Claim C7: along every event sequence at most one refresh timer is
live, every live timer has period 100ms, and a scene rebuild always
leaves exactly one live timer (the prior one, if any, torn down first). -/
theorem at_most_one_live_timer (w h : ℤ) (evs : List UiEvent) :
    (runUi w h evs).sys.timers.length ≤ 1 ∧
    (∀ tp ∈ (runUi w h evs).sys.timers, tp.2 = 100) ∧
    (runUi w h (evs ++ [UiEvent.build])).sys.timers.length = 1 := by
  refine ⟨?_, ?_, ?_⟩
  · rcases runUi_timerInv w h evs with ⟨h1, _⟩ | ⟨id, h1, _⟩ <;>
      simp [h1]
  · intro tp htp
    rcases runUi_timerInv w h evs with ⟨h1, _⟩ | ⟨id, h1, _⟩ <;>
      rw [h1] at htp <;> simp at htp
    rw [htp]
  · rw [runUi_append_build]
    rcases runUi_timerInv w h evs with ⟨h1, h2⟩ | ⟨id, h1, h2⟩
    · rw [(create_result_none w h _ h2).1, h1]
      simp
    · rw [(create_result_some w h _ id h2).1, h1]
      simp

/-! ## Radii derivation order (lines 166-169) and rebuild effects -/

lemma compute_inner_r (m w h d : ℤ) :
    (compute m w h d).inner_r = (((d / 2 : ℤ) : ℚ) - 7) * (20 / 100) := by
  simp only [compute, ARC_WIDTH, NEEDLE_INNER_RATIO]
  norm_num

lemma compute_outer_r (m w h d : ℤ) :
    (compute m w h d).outer_r = (((d / 2 : ℤ) : ℚ) - 7) * (75 / 100) := by
  simp only [compute, ARC_WIDTH, NEEDLE_OUTER_RATIO]
  norm_num

/-- Claim C8: the radii are derived in the source order — outer radius
r = gauge_diameter/2 - 14/2, inner endpoint radius r * 0.20 from the
pre-scaled r, and only then the outer endpoint radius r * 0.75 — so the
inner radius equals (gauge_diameter/2 - 7) * 0.20 and differs from
(final outer radius) * 0.20 whenever the radius is nonzero. -/
theorem needle_radii_order (m w h d : ℤ) (hd : ((d / 2 : ℤ) : ℚ) ≠ 7) :
    (compute m w h d).inner_r = (((d / 2 : ℤ) : ℚ) - 7) * (20 / 100) ∧
    (compute m w h d).outer_r = (((d / 2 : ℤ) : ℚ) - 7) * (75 / 100) ∧
    (compute m w h d).inner_r ≠ (compute m w h d).outer_r * (20 / 100) := by
  refine ⟨compute_inner_r m w h d, compute_outer_r m w h d, ?_⟩
  rw [compute_inner_r, compute_outer_r]
  intro heq
  apply hd
  have hr : (((d / 2 : ℤ) : ℚ) - 7) = 0 := by linarith
  linarith

/-- Concrete instantiation of `needle_radii_order` for the 370px meter of
this build: inner radius 36.4 versus 27.75 had the ratios been applied
to the final outer radius. -/
theorem needle_radii_order_witness :
    ((((370 : ℤ) / 2 : ℤ) : ℚ) ≠ 7) ∧
    (compute 0 360 360 370).inner_r = ((((370 : ℤ) / 2 : ℤ) : ℚ) - 7) * (20 / 100) ∧
    (compute 0 360 360 370).outer_r = ((((370 : ℤ) / 2 : ℤ) : ℚ) - 7) * (75 / 100) ∧
    (compute 0 360 360 370).inner_r ≠ (compute 0 360 360 370).outer_r * (20 / 100) :=
  ⟨by norm_num,
   (needle_radii_order 0 360 360 370 (by norm_num)).1,
   (needle_radii_order 0 360 360 370 (by norm_num)).2.1,
   (needle_radii_order 0 360 360 370 (by norm_num)).2.2⟩

lemma create_rpm_value (w h : ℤ) (st : UiState) :
    (Lvgl_CreateRpmGauge w h st).rpm_value = st.rpm_value := by
  cases hrt : st.rpm_timer <;>
    simp [Lvgl_CreateRpmGauge, update_needle, hrt]

lemma create_current_scheme (w h : ℤ) (st : UiState) :
    (Lvgl_CreateRpmGauge w h st).current_scheme = st.current_scheme := by
  cases hrt : st.rpm_timer <;>
    simp [Lvgl_CreateRpmGauge, update_needle, hrt]

lemma create_rpm_label (w h : ℤ) (st : UiState) :
    (Lvgl_CreateRpmGauge w h st).rpm_label = some "0" := by
  cases hrt : st.rpm_timer <;>
    simp [Lvgl_CreateRpmGauge, update_needle, hrt]

lemma create_needle (w h : ℤ) (st : UiState) :
    (Lvgl_CreateRpmGauge w h st).needle =
      some (compute st.rpm_value w h GAUGE_SIZE) := by
  cases hrt : st.rpm_timer <;>
    simp [Lvgl_CreateRpmGauge, update_needle, hrt]

lemma rpm_timer_cb_label_of_some (w h : ℤ) (st : UiState) (s : String)
    (hs : st.rpm_label = some s) :
    (rpm_timer_cb w h st).rpm_label = some (toString st.rpm_value) := by
  unfold rpm_timer_cb
  simp [update_needle_rpm_label, hs]

/-- State just before the tap of the C9 scenario: scheme 0 on screen,
last received measurement 5000 already shown on the label. -/
def tapLabelCexState : UiState :=
  ⟨0, 5000, true, some "5000", some (compute 5000 360 360 370),
   ⟨[(0, 100)], 1⟩, some 0⟩

/-- Claim C9 counterexample: a tap rebuild preserves the stored
measurement 5000, but the numeric label after the rebuild reads "0",
not the last value "5000" — the builder resets the label text (source
line 304) and the explicit post-build update call refreshes only the
needle (line 323). -/
theorem label_reset_after_tap_cex :
    (touch_color_cycle_cb 360 360 tapLabelCexState).rpm_value = 5000 ∧
    toString (tapLabelCexState.rpm_value) = "5000" ∧
    (touch_color_cycle_cb 360 360 tapLabelCexState).rpm_label = some "0" ∧
    (touch_color_cycle_cb 360 360 tapLabelCexState).rpm_label ≠ some "5000" := by
  refine ⟨?_, by decide, ?_, ?_⟩
  · rw [touch_color_cycle_cb, create_rpm_value]
    rfl
  · rw [touch_color_cycle_cb, create_rpm_label]
  · rw [touch_color_cycle_cb, create_rpm_label]
    decide

/-- Claim C9 as amended: a tap rebuild preserves the stored measurement
and immediately recomputes the needle geometry from it via the explicit
post-build update call, but the numeric label is reset to "0" by the
rebuild and shows the preserved measurement again only at the next
refresh tick. -/
theorem rebuild_preserves_measurement (w h : ℤ) (st : UiState) :
    (touch_color_cycle_cb w h st).rpm_value = st.rpm_value ∧
    (touch_color_cycle_cb w h st).current_scheme = advance st.current_scheme ∧
    (touch_color_cycle_cb w h st).needle =
      some (compute st.rpm_value w h GAUGE_SIZE) ∧
    (touch_color_cycle_cb w h st).rpm_label = some "0" ∧
    (rpm_timer_cb w h (touch_color_cycle_cb w h st)).rpm_label =
      some (toString st.rpm_value) := by
  refine ⟨?_, ?_, ?_, ?_, ?_⟩
  · rw [touch_color_cycle_cb, create_rpm_value]
  · rw [touch_color_cycle_cb, create_current_scheme]
  · rw [touch_color_cycle_cb, create_needle]
  · rw [touch_color_cycle_cb, create_rpm_label]
  · rw [rpm_timer_cb_label_of_some w h _ "0"
      (by rw [touch_color_cycle_cb, create_rpm_label]),
      touch_color_cycle_cb, create_rpm_value]

end RWBGauge
